import Mathlib

/-!
Shallow embedding of `cc_notifier.py` (cc-notifier): session-state and
deduplication protocol, local-notification decision, idle escalation,
retention sweep, log trimming, and session-file round-trip.

Conventions of the embedding:
* machine floats (Unix timestamps) are modelled as rationals `ℚ`;
* the advisory-lock outcome of `fcntl.flock(..., LOCK_EX | LOCK_NB)` is an
  explicit boolean input (`lockAcquired`);
* Python exceptions are `Except PyError`; a caught exception is handled in
  the same place the source handles it;
* external query outcomes (idle-time source) are explicit inputs: the k-th
  call to `get_idle_time` yields `src k`, with `none` standing for a raised
  `RuntimeError` (timeout, parse failure, command failure).
-/

namespace CcNotifier

/-- Python exception kinds that the modelled code can raise or catch. -/
inductive PyError where
  | fileNotFound
  | blockingIO
  | valueError
  | runtimeError
deriving DecidableEq, Repr

/-- Parsed content of a session file: line 0 is the window id, line 1 the
last-notified Unix timestamp (`float(lines[1])`). -/
structure SessionState where
  window_id : String
  timestamp : ℚ
deriving DecidableEq, Repr

/-- `NOTIFICATION_DEDUPLICATION_THRESHOLD_SECONDS = 2.0` from the source. -/
def NOTIFICATION_DEDUPLICATION_THRESHOLD_SECONDS : ℚ := 2

/-- Core of `check_deduplication` once the file is open: with the lock held,
compare `now` against the stored timestamp; on a fresh timestamp return skip
(`true`) without mutating, otherwise rewrite the file as
`f"{lines[0]}\n{time.time()}"` and return proceed (`false`).  A failed
non-blocking lock raises `BlockingIOError`, which the source catches and
turns into skip, leaving the file untouched. -/
def dedup_decide (st : SessionState) (lockAcquired : Bool) (now : ℚ) :
    Bool × SessionState :=
  if lockAcquired then
    if now - st.timestamp < NOTIFICATION_DEDUPLICATION_THRESHOLD_SECONDS then
      (true, st)
    else
      (false, { window_id := st.window_id, timestamp := now })
  else
    (true, st)

/-- `check_deduplication(session_file)`: `open(session_file, "r+")` raises
`FileNotFoundError` when the session file is absent (the function only
catches `BlockingIOError`); otherwise behaves as `dedup_decide`.  The
returned state is the file content after the call. -/
def check_deduplication (file : Option SessionState) (lockAcquired : Bool)
    (now : ℚ) : Except PyError (Bool × SessionState) :=
  match file with
  | none => Except.error PyError.fileNotFound
  | some st => Except.ok (dedup_decide st lockAcquired now)

/-- Run a sequence of deduplication checks against one (existing) session
file.  Each call is a pair `(lockAcquired, now)`; the result collects the
skip/proceed answers in order together with the final file content. -/
def runDedupSeq (st : SessionState) : List (Bool × ℚ) → List Bool × SessionState
  | [] => ([], st)
  | c :: cs =>
    let r := dedup_decide st c.1 c.2
    let rest := runDedupSeq r.2 cs
    (r.1 :: rest.1, rest.2)

theorem runDedupSeq_nil (st : SessionState) : runDedupSeq st [] = ([], st) := rfl

theorem runDedupSeq_cons (st : SessionState) (c : Bool × ℚ) (cs : List (Bool × ℚ)) :
    runDedupSeq st (c :: cs) =
      ((dedup_decide st c.1 c.2).1 :: (runDedupSeq (dedup_decide st c.1 c.2).2 cs).1,
       (runDedupSeq (dedup_decide st c.1 c.2).2 cs).2) := rfl

/-- If every call in the sequence happens within the threshold of the stored
timestamp, every call skips and the file is never mutated. -/
theorem runDedupSeq_all_skip (st : SessionState) (calls : List (Bool × ℚ))
    (h : ∀ c ∈ calls, c.2 - st.timestamp < NOTIFICATION_DEDUPLICATION_THRESHOLD_SECONDS) :
    runDedupSeq st calls = (calls.map (fun _ => true), st) := by
  induction calls with
  | nil => rfl
  | cons c cs ih =>
    have hc := h c (List.mem_cons_self c cs)
    have hd : dedup_decide st c.1 c.2 = (true, st) := by
      unfold dedup_decide
      cases c.1 with
      | false => simp
      | true => simp [hc]
    rw [runDedupSeq_cons, hd]
    have := ih (fun d hd' => h d (List.mem_cons_of_mem c hd'))
    simp [this]

/-- Among deduplication checks whose times all lie within the threshold of
each other, at most one returns proceed (`false`). -/
theorem runDedupSeq_count_le_one (st : SessionState) (calls : List (Bool × ℚ))
    (h : ∀ c ∈ calls, ∀ d ∈ calls,
      c.2 - d.2 < NOTIFICATION_DEDUPLICATION_THRESHOLD_SECONDS) :
    ((runDedupSeq st calls).1.count false) ≤ 1 := by
  induction calls generalizing st with
  | nil => simp [runDedupSeq]
  | cons c cs ih =>
    rw [runDedupSeq_cons]
    by_cases hp : (dedup_decide st c.1 c.2).1 = true
    · have hrest := ih (dedup_decide st c.1 c.2).2
        (fun a ha b hb => h a (List.mem_cons_of_mem c ha) b (List.mem_cons_of_mem c hb))
      simpa [List.count_cons, hp] using hrest
    · -- the head call proceeded, so the stored timestamp becomes `c.2`
      have hpf : (dedup_decide st c.1 c.2).1 = false := by simpa using hp
      have hlock : c.1 = true := by
        by_contra hl
        have : c.1 = false := by simpa using hl
        simp [dedup_decide, this] at hp
      have hfresh : ¬ c.2 - st.timestamp < NOTIFICATION_DEDUPLICATION_THRESHOLD_SECONDS := by
        by_contra hf
        simp [dedup_decide, hlock, hf] at hp
      have hst : (dedup_decide st c.1 c.2).2 =
          { window_id := st.window_id, timestamp := c.2 } := by
        simp [dedup_decide, hlock, hfresh]
      have hall : ∀ d ∈ cs, d.2 - ((dedup_decide st c.1 c.2).2).timestamp <
          NOTIFICATION_DEDUPLICATION_THRESHOLD_SECONDS := by
        intro d hd
        rw [hst]
        exact h d (List.mem_cons_of_mem c hd) c (List.mem_cons_self c cs)
      have hrest := runDedupSeq_all_skip _ cs hall
      rw [hrest]
      simp [List.count_cons, hpf, List.count_replicate]

/-! ## Hook data and the notification composer -/

/-- `HookData` with the source's field defaults. -/
structure HookData where
  session_id : String
  cwd : String := ""
  hook_event_name : String := "Stop"
  message : String := ""
deriving DecidableEq, Repr

/-- Python's `Path(p).name`: the last path component (`pathlib` collapses
empty pieces and single dots but keeps `..`, so `Path("a/..").name = ".."`). -/
def pathBaseName (p : String) : String :=
  (((p.splitOn "/").filter (fun s => s ≠ "" && s ≠ ".")).getLastD "")

/-- `create_notification_data(hook_data, for_push)` with `DEBUG = False`.
The wall-clock string interpolated into the push title is an explicit input
`pushTimestamp` (the source reads it from `time.strftime`). -/
def create_notification_data (hook : HookData) (for_push : Bool)
    (pushTimestamp : String) : String × String × String :=
  let subtitle := if hook.cwd ≠ "" then pathBaseName hook.cwd else "Task Completed"
  let message :=
    if hook.hook_event_name = "Notification" && hook.message ≠ "" then hook.message
    else "Completed task"
  let title :=
    if for_push then subtitle ++ " [" ++ pushTimestamp ++ "]"
    else "Claude Code 🔔"
  (title, subtitle, message)

/-- One invocation of the local-notification sink (`send_notification`):
display strings plus the optional click-to-focus window id that the
`-execute` click action embeds via `create_focus_command`. -/
structure SinkCall where
  title : String
  subtitle : String
  message : String
  focus_window_id : Option String
deriving DecidableEq, Repr

/-- `send_local_notification_if_needed(hook_data, original_window_id)`: query
the current window, send nothing when it equals the stored id, otherwise send
exactly one notification whose click action focuses the original window.  The
result lists the sink invocations made. -/
def send_local_notification_if_needed (hook : HookData)
    (original_window_id current_window_id : String) : List SinkCall :=
  if original_window_id = current_window_id then []
  else
    let d := create_notification_data hook false ""
    [{ title := d.1, subtitle := d.2.1, message := d.2.2,
       focus_window_id := some original_window_id }]

/-! ## Retention sweep and the cleanup / notify commands -/

/-- `CLEANUP_AGE_SECONDS = 5 * 24 * 60 * 60`. -/
def CLEANUP_AGE_SECONDS : ℚ := 5 * 24 * 60 * 60

/-- One directory entry of `SESSION_DIR` as the sweep sees it: its name, its
`st_mtime`, whether it is a regular file, and whether `stat`/`unlink` raises
`OSError` for it. -/
structure FileEnt where
  name : String
  mtime : ℚ
  isFile : Bool
  osFails : Bool
deriving DecidableEq, Repr

/-- The `for file_path in SESSION_DIR.glob("*")` loop of `cleanup_session`:
non-files are skipped, an `OSError` on `stat`/`unlink` is caught and the loop
continues, and a regular file is deleted iff `st_mtime < cutoff`.  Returns the
surviving entries in order. -/
def sweepFiles (cutoff : ℚ) : List FileEnt → List FileEnt
  | [] => []
  | f :: rest =>
    if !f.isFile then f :: sweepFiles cutoff rest
    else if f.osFails then f :: sweepFiles cutoff rest
    else if f.mtime < cutoff then sweepFiles cutoff rest
    else f :: sweepFiles cutoff rest

/-- `cleanup_session(_)`: ignores its session-id argument entirely (per-ID
deletion is disabled in the source) and runs the age-based sweep with cutoff
`time.time() - CLEANUP_AGE_SECONDS`. -/
def cleanup_session (_session_id : String) (now : ℚ) (files : List FileEnt) :
    List FileEnt :=
  sweepFiles (now - CLEANUP_AGE_SECONDS) files

/-- Outcome of a routed command under the `handle_command_errors` decorator:
normal return, or exception caught, logged and `sys.exit(1)`. -/
inductive CmdResult where
  | ok
  | exit1
deriving DecidableEq, Repr

/-- `cmd_cleanup`: parse hook data (assumed valid here), run
`cleanup_session`.  It raises nothing, so the decorator never fires. -/
def cmd_cleanup (hook : HookData) (now : ℚ) (files : List FileEnt) :
    CmdResult × List FileEnt :=
  (CmdResult.ok, cleanup_session hook.session_id now files)

/-- The session-file part of `cmd_notify` (push escalation elided): run
`check_deduplication` on `SESSION_DIR / session_id`; a raised error
(missing session file) is caught by `handle_command_errors` and turns into
exit 1; a skip returns quietly; otherwise re-read the first line of the file
(the window id, unchanged by the rewrite) and run the local-notification
decision against the current window. -/
def cmd_notify (file : Option SessionState) (lockAcquired : Bool) (now : ℚ)
    (current_window_id : String) (hook : HookData) :
    CmdResult × Option SessionState × List SinkCall :=
  match check_deduplication file lockAcquired now with
  | Except.error _ => (CmdResult.exit1, file, [])
  | Except.ok (true, st) => (CmdResult.ok, some st, [])
  | Except.ok (false, st) =>
    (CmdResult.ok, some st,
      send_local_notification_if_needed hook st.window_id current_window_id)

/-! ## Log trimming -/

/-- `MAX_LOG_LINES = 2250` (trigger trim when exceeded). -/
def MAX_LOG_LINES : ℕ := 2250

/-- `TRIM_TO_LINES = 1250` (keep newest lines after trim). -/
def TRIM_TO_LINES : ℕ := 1250

/-- `_trim_log_if_needed`, at the granularity of log lines: a nonexistent
file is the empty line list; at or below `MAX_LOG_LINES` nothing happens;
above it only the newest `TRIM_TO_LINES` lines (`lines[-TRIM_TO_LINES:]`)
are kept. -/
def trim_log_if_needed (log : List String) : List String :=
  if log.length ≤ MAX_LOG_LINES then log
  else log.drop (log.length - TRIM_TO_LINES)

/-- `_write_log_entry`: trim if needed, then append the new entry line. -/
def write_log_entry (entry : String) (log : List String) : List String :=
  trim_log_if_needed log ++ [entry]

/-! ## Session-file bytes: `save_window_id` / `load_window_id` round trip -/

/-- Python `str.strip()` whitespace set (characters with `str.isspace()`
true): `\t \n \v \f \r` (0x09-0x0D), the separators 0x1C-0x1F, space, NEL
(0x85), NBSP (0xA0), Ogham space mark, the Unicode spaces 0x2000-0x200A,
line/paragraph separators, narrow no-break space, medium mathematical space
and ideographic space. -/
def pyIsSpace (c : Char) : Bool :=
  let n := c.toNat
  (9 ≤ n && n ≤ 13) || (28 ≤ n && n ≤ 31) || n = 32 || n = 133 || n = 160 ||
    n = 0x1680 || (0x2000 ≤ n && n ≤ 0x200A) || n = 0x2028 || n = 0x2029 ||
    n = 0x202F || n = 0x205F || n = 0x3000

/-- Python `str.strip()` on a character list. -/
def pyStrip (l : List Char) : List Char :=
  ((l.dropWhile pyIsSpace).reverse.dropWhile pyIsSpace).reverse

/-- Python `str.split(sep)` for a one-character separator: splits at every
occurrence, keeping empty pieces, and yields `[""]` on the empty string. -/
def pySplitChar (sep : Char) : List Char → List (List Char)
  | [] => [[]]
  | x :: xs =>
    match pySplitChar sep xs with
    | [] => [[]]
    | h :: t => if x = sep then [] :: h :: t else (x :: h) :: t

/-- `save_window_id`: the bytes written to the session file,
`f"{window_id}\n0"`. -/
def save_window_id (window_id : String) : List Char :=
  window_id.data ++ ['\n', '0']

/-- `load_window_id`: `session_file.read_text().strip().split("\n")[0]`. -/
def load_window_id (content : List Char) : String :=
  String.mk ((pySplitChar '\n' (pyStrip content)).headI)

/-! ## Idle escalation and push notification -/

/-- Push credentials (`PUSHOVER_API_TOKEN`, `PUSHOVER_USER_KEY`); `PushConfig.from_env`
yields `some` only when both are set. -/
structure PushConfig where
  token : String
  user : String
deriving DecidableEq, Repr

/-- `is_user_idle(seconds)` with the outcome of its `get_idle_time()` call
made explicit: `none` models a raised `RuntimeError` (ioreg timeout, missing
`HIDIdleTime`, command failure), which the source catches, assuming the user
is active. -/
def is_user_idle (query : Option ℕ) (seconds : ℕ) : Bool :=
  match query with
  | some idle => decide (idle ≥ seconds)
  | none => false

/-- The checkpoint loop of `check_idle_and_notify_push`: `src k` is the
outcome of the k-th `get_idle_time` call; `previous` starts at 0.  Each
iteration runs `time.sleep(check_time - previous_time)` first — Python's
`time.sleep` raises `ValueError` for a negative duration, so a non-ascending
checkpoint list raises to the caller.  On success, returns the list of sleep
durations performed and whether every checkpoint passed (reaching the push
send). -/
def idleLoop (src : ℕ → Option ℕ) (k : ℕ) (previous : ℕ) :
    List ℕ → Except PyError (List Int × Bool)
  | [] => Except.ok ([], true)
  | t :: rest =>
    let gap : Int := (t : Int) - (previous : Int)
    if gap < 0 then Except.error PyError.valueError
    else if is_user_idle (src k) t then
      match idleLoop src (k + 1) t rest with
      | Except.ok r => Except.ok (gap :: r.1, r.2)
      | Except.error e => Except.error e
    else
      Except.ok ([gap], false)

/-- `check_idle_and_notify_push(hook_data, check_times)`: a missing push
config returns at once (no sleeps, no push); an empty checkpoint list raises
`ValueError`; otherwise the loop runs (its own raised errors propagating to
the caller) and, if every checkpoint passed, exactly one push notification is
sent.  The `ok` payload is the sleep list together with the number of pushes
sent. -/
def check_idle_and_notify_push (cfg : Option PushConfig) (src : ℕ → Option ℕ)
    (check_times : List ℕ) : Except PyError (List Int × ℕ) :=
  match cfg with
  | none => Except.ok ([], 0)
  | some _ =>
    if check_times.isEmpty then Except.error PyError.valueError
    else
      match idleLoop src 0 0 check_times with
      | Except.ok r => Except.ok (r.1, if r.2 then 1 else 0)
      | Except.error e => Except.error e

/-- Number of pushes sent by a `check_idle_and_notify_push` outcome. -/
def pushesSent : Except PyError (List Int × ℕ) → ℕ
  | Except.ok p => p.2
  | Except.error _ => 0

/-- Whether a `check_idle_and_notify_push` outcome raised to the caller. -/
def raisedError : Except PyError (List Int × ℕ) → Bool
  | Except.ok _ => false
  | Except.error _ => true

/-! ## Session-file paths -/

/-- `SESSION_DIR = Path("/tmp/cc_notifier")`, as absolute path components. -/
def SESSION_DIR_COMPONENTS : List String := ["tmp", "cc_notifier"]

/-- Whether a path string is absolute (`pathlib` treats a leading `/` so). -/
def isAbsolutePath (s : String) : Bool :=
  match s.data with
  | '/' :: _ => true
  | _ => false

/-- `pathlib` components of one path string: split on `/`, collapsing empty
pieces and single dots, keeping `..`. -/
def pathSegments (s : String) : List String :=
  ((pySplitChar '/' s.data).map (fun l => String.mk l)).filter
    (fun c => c ≠ "" && c ≠ ".")

/-- `Path(base) / seg` (`pathlib`): an absolute right operand replaces the
base entirely; otherwise its components are appended — `..` is NOT resolved
by `pathlib` and survives into the operating-system path. -/
def pathJoin (base : List String) (seg : String) : List String :=
  if isAbsolutePath seg then pathSegments seg else base ++ pathSegments seg

/-- `SESSION_DIR / hook_data.session_id`, the session-file path that
`cmd_notify`, `save_window_id` and `load_window_id` all use. -/
def session_file_path (session_id : String) : List String :=
  pathJoin SESSION_DIR_COMPONENTS session_id

/-- Operating-system resolution of `..` components against an absolute path
(POSIX: `..` at the root refers to the root itself). -/
def resolvePath (comps : List String) : List String :=
  comps.foldl (fun acc c => if c = ".." then acc.dropLast else acc ++ [c]) []

/-- Whether a resolved absolute path lies inside the session directory. -/
def insideSessionDir (comps : List String) : Bool :=
  SESSION_DIR_COMPONENTS.isPrefixOf comps

/-! ## Claim theorems -/

/-- C1 (amended): with the lock acquired, a deduplication check skips without
mutating the file when `now - stored < 2.0` and otherwise rewrites the file
with the unchanged window id and the new timestamp and proceeds; among calls
whose times all lie within the threshold of each other, at most ONE returns
"proceed" (namely the first one that does — not necessarily the first call of
the sequence). -/
theorem claim_C1_dedup_protocol (st : SessionState) (now : ℚ)
    (calls : List (Bool × ℚ))
    (hwin : ∀ c ∈ calls, ∀ d ∈ calls,
      c.2 - d.2 < NOTIFICATION_DEDUPLICATION_THRESHOLD_SECONDS) :
    check_deduplication (some st) true now =
      Except.ok
        (if now - st.timestamp < NOTIFICATION_DEDUPLICATION_THRESHOLD_SECONDS
         then (true, st)
         else (false, { window_id := st.window_id, timestamp := now })) ∧
    ((runDedupSeq st calls).1.count false) ≤ 1 := by
  refine ⟨?_, runDedupSeq_count_le_one st calls hwin⟩
  by_cases h : now - st.timestamp < NOTIFICATION_DEDUPLICATION_THRESHOLD_SECONDS <;>
    simp [check_deduplication, dedup_decide, h]

/-- C1 witness: a concrete session file and a concrete one-call sequence
inside the threshold window. -/
theorem claim_C1_dedup_protocol_witness :
    check_deduplication (some { window_id := "w", timestamp := 0 }) true 5 =
      Except.ok
        (if (5 : ℚ) - ({ window_id := "w", timestamp := 0 } : SessionState).timestamp <
            NOTIFICATION_DEDUPLICATION_THRESHOLD_SECONDS
         then (true, { window_id := "w", timestamp := 0 })
         else (false, { window_id := "w", timestamp := 5 })) ∧
    ((runDedupSeq { window_id := "w", timestamp := 0 } [(true, 5)]).1.count false) ≤ 1 :=
  claim_C1_dedup_protocol { window_id := "w", timestamp := 0 } 5 [(true, 5)] (by
    intro c hc d hd
    simp only [List.mem_singleton] at hc hd
    subst hc; subst hd
    norm_num [NOTIFICATION_DEDUPLICATION_THRESHOLD_SECONDS])

/-- C1 counterexample: the claim's "at most the FIRST call returns proceed"
fails.  Stored timestamp 0, calls at times 3/2 and 5/2 (which are within the
2-second threshold of each other): the first call skips (3/2 - 0 < 2) while
the second proceeds (5/2 - 0 ≥ 2). -/
theorem claim_C1_counterexample :
    ((5 : ℚ) / 2 - 3 / 2 < NOTIFICATION_DEDUPLICATION_THRESHOLD_SECONDS) ∧
    (runDedupSeq { window_id := "w", timestamp := 0 }
      [(true, 3 / 2), (true, 5 / 2)]).1 = [true, false] := by
  constructor
  · norm_num [NOTIFICATION_DEDUPLICATION_THRESHOLD_SECONDS]
  · have h1 : ((3 : ℚ) / 2 < NOTIFICATION_DEDUPLICATION_THRESHOLD_SECONDS) := by
      norm_num [NOTIFICATION_DEDUPLICATION_THRESHOLD_SECONDS]
    have h2 : ¬ ((5 : ℚ) / 2 < NOTIFICATION_DEDUPLICATION_THRESHOLD_SECONDS) := by
      norm_num [NOTIFICATION_DEDUPLICATION_THRESHOLD_SECONDS]
    simp [runDedupSeq, dedup_decide, h1, h2]

/-- C2: when the exclusive non-blocking lock cannot be acquired (the caught
`BlockingIOError` path), the check returns "skip" and the session file is
left completely unchanged. -/
theorem claim_C2_lock_contention (st : SessionState) (now : ℚ) :
    check_deduplication (some st) false now = Except.ok (true, st) := rfl

/-- C4: the local-notification sink is invoked iff the current window id
differs from the stored one; when invoked it is invoked exactly once, with a
click action that focuses the ORIGINAL stored window id, never the current
one. -/
theorem claim_C4_local_sink (hook : HookData) (orig cur : String) :
    (orig = cur → send_local_notification_if_needed hook orig cur = []) ∧
    (orig ≠ cur →
      (send_local_notification_if_needed hook orig cur).length = 1 ∧
      ∀ call ∈ send_local_notification_if_needed hook orig cur,
        call.focus_window_id = some orig) := by
  constructor
  · intro h
    simp [send_local_notification_if_needed, h]
  · intro h
    refine ⟨?_, ?_⟩ <;> simp [send_local_notification_if_needed, h]

/-- C4 witness: equal windows send nothing; distinct windows send exactly
one notification. -/
theorem claim_C4_local_sink_witness :
    send_local_notification_if_needed { session_id := "s" } "42" "42" = [] ∧
    (send_local_notification_if_needed { session_id := "s" } "42" "43").length = 1 :=
  ⟨(claim_C4_local_sink { session_id := "s" } "42" "42").1 rfl,
   ((claim_C4_local_sink { session_id := "s" } "42" "43").2 (by decide)).1⟩

/-- C6 (amended): `notify` on a session id with no record fails with the
defined missing-record error (`FileNotFoundError`, caught by the command
wrapper and turned into exit 1), touching no file and invoking no sink;
`cleanup`, however, ignores the session id entirely (per-id deletion is
disabled in the source) and succeeds even when no record exists. -/
theorem claim_C6_missing_record (hook : HookData) (lockAcquired : Bool)
    (now : ℚ) (cur : String) (files : List FileEnt) :
    cmd_notify none lockAcquired now cur hook = (CmdResult.exit1, none, []) ∧
    (cmd_cleanup hook now files).1 = CmdResult.ok :=
  ⟨rfl, rfl⟩

/-- C6 counterexample: the claim's "cleanup fails with a missing-record
error" is false — `cleanup` for a session id with no record (empty session
directory) completes successfully instead of failing. -/
theorem claim_C6_counterexample :
    cmd_cleanup { session_id := "no-such-session" } 1000000 [] =
      (CmdResult.ok, []) := rfl

/-- The sweep loop is a filter: it keeps exactly the entries that are not
regular files, or whose `stat`/`unlink` raised, or that are new enough. -/
theorem sweepFiles_eq_filter (cutoff : ℚ) (files : List FileEnt) :
    sweepFiles cutoff files =
      files.filter (fun f => !(f.isFile && !f.osFails && decide (f.mtime < cutoff))) := by
  induction files with
  | nil => rfl
  | cons f rest ih =>
    by_cases h1 : f.isFile = true
    · by_cases h2 : f.osFails = true
      · simp [sweepFiles, h1, h2, ih, List.filter_cons]
      · have h2' : f.osFails = false := by simpa using h2
        by_cases h3 : f.mtime < cutoff
        · simp [sweepFiles, h1, h2', h3, ih, List.filter_cons]
        · simp [sweepFiles, h1, h2', h3, ih, List.filter_cons]
    · have h1' : f.isFile = false := by simpa using h1
      simp [sweepFiles, h1', ih, List.filter_cons]

/-- C7: over any set of regular files, one retention sweep deletes exactly
the files whose modification time is strictly older than `now - 5 days` and
preserves all others; an entry whose deletion raises `OSError` is skipped
(preserved) without aborting the sweep — every later entry is still processed
by the same per-file rule. -/
theorem claim_C7_retention_sweep (sid : String) (now : ℚ) (files : List FileEnt)
    (hreg : ∀ f ∈ files, f.isFile = true) :
    (∀ f ∈ files, (f ∈ cleanup_session sid now files ↔
      (f.osFails = true ∨ ¬ f.mtime < now - CLEANUP_AGE_SECONDS))) ∧
    (∀ f rest, cleanup_session sid now (f :: rest) =
      (if f.isFile && !f.osFails && decide (f.mtime < now - CLEANUP_AGE_SECONDS)
       then [] else [f]) ++ cleanup_session sid now rest) := by
  constructor
  · intro f hf
    have hif := hreg f hf
    rw [cleanup_session, sweepFiles_eq_filter, List.mem_filter]
    constructor
    · intro h
      rcases h with ⟨-, hcond⟩
      by_cases ho : f.osFails = true
      · exact Or.inl ho
      · have ho' : f.osFails = false := by simpa using ho
        refine Or.inr ?_
        intro hlt
        rw [hif, ho'] at hcond
        simp [hlt] at hcond
    · intro h
      refine ⟨hf, ?_⟩
      rcases h with ho | hge
      · simp [ho]
      · simp [hge]
  · intro f rest
    rw [cleanup_session, cleanup_session, sweepFiles_eq_filter, sweepFiles_eq_filter,
      List.filter_cons]
    by_cases hc : (f.isFile && !f.osFails && decide (f.mtime < now - CLEANUP_AGE_SECONDS)) = true
    · simp [hc]
    · have hc' : (f.isFile && !f.osFails && decide (f.mtime < now - CLEANUP_AGE_SECONDS)) = false := by
        simpa using hc
      simp [hc']

/-- C7 witness: a 6-days-old file is deleted, a 1-day-old file is preserved,
and a file whose deletion raises is preserved without stopping the sweep. -/
theorem claim_C7_retention_sweep_witness :
    ({ name := "old", mtime := 1000000 - 6 * 86400, isFile := true, osFails := false } ∉
      cleanup_session "s" 1000000
        [{ name := "old", mtime := 1000000 - 6 * 86400, isFile := true, osFails := false },
         { name := "stuck", mtime := 0, isFile := true, osFails := true },
         { name := "new", mtime := 1000000 - 86400, isFile := true, osFails := false }]) ∧
    ({ name := "new", mtime := 1000000 - 86400, isFile := true, osFails := false } ∈
      cleanup_session "s" 1000000
        [{ name := "old", mtime := 1000000 - 6 * 86400, isFile := true, osFails := false },
         { name := "stuck", mtime := 0, isFile := true, osFails := true },
         { name := "new", mtime := 1000000 - 86400, isFile := true, osFails := false }]) ∧
    ({ name := "stuck", mtime := 0, isFile := true, osFails := true } ∈
      cleanup_session "s" 1000000
        [{ name := "old", mtime := 1000000 - 6 * 86400, isFile := true, osFails := false },
         { name := "stuck", mtime := 0, isFile := true, osFails := true },
         { name := "new", mtime := 1000000 - 86400, isFile := true, osFails := false }]) := by
  have hmain := (claim_C7_retention_sweep "s" 1000000
    [{ name := "old", mtime := 1000000 - 6 * 86400, isFile := true, osFails := false },
     { name := "stuck", mtime := 0, isFile := true, osFails := true },
     { name := "new", mtime := 1000000 - 86400, isFile := true, osFails := false }]
    (by intro f hf; fin_cases hf <;> rfl)).1
  refine ⟨?_, ?_, ?_⟩
  · intro hmem
    have := (hmain _ (by simp)).mp hmem
    rcases this with h | h
    · exact absurd h (by simp)
    · exact h (by norm_num [CLEANUP_AGE_SECONDS])
  · exact (hmain _ (by simp)).mpr (Or.inr (by norm_num [CLEANUP_AGE_SECONDS]))
  · exact (hmain _ (by simp)).mpr (Or.inl rfl)

/-- C8 (amended): a write past the 2250-line watermark first trims the
existing content to its newest 1250 lines and then appends the new entry, so
the file ends with exactly `TRIM_TO_LINES + 1 = 1251` lines — a suffix of the
old log followed by the new entry, in original order; a write at or below the
watermark appends the entry, leaving all existing lines in place. -/
theorem claim_C8_log_trim (log : List String) (e : String) :
    (MAX_LOG_LINES < log.length →
      write_log_entry e log = log.drop (log.length - TRIM_TO_LINES) ++ [e] ∧
      (write_log_entry e log).length = TRIM_TO_LINES + 1) ∧
    (log.length ≤ MAX_LOG_LINES → write_log_entry e log = log ++ [e]) := by
  constructor
  · intro h
    have hnot : ¬ log.length ≤ MAX_LOG_LINES := by omega
    constructor
    · simp [write_log_entry, trim_log_if_needed, hnot]
    · simp only [write_log_entry, trim_log_if_needed, hnot, if_false,
        List.length_append, List.length_drop, List.length_singleton]
      have : TRIM_TO_LINES ≤ log.length := by
        simp only [MAX_LOG_LINES, TRIM_TO_LINES] at h ⊢
        omega
      omega
  · intro h
    simp [write_log_entry, trim_log_if_needed, h]

/-- C8 witness: a 2260-line log is trimmed to 1251 lines by the next write;
a one-line log just gets the entry appended. -/
theorem claim_C8_log_trim_witness :
    (write_log_entry "e" (List.replicate 2260 "x")).length = TRIM_TO_LINES + 1 ∧
    write_log_entry "e" ["a"] = ["a"] ++ ["e"] :=
  ⟨((claim_C8_log_trim (List.replicate 2260 "x") "e").1
      (by rw [List.length_replicate]; norm_num [MAX_LOG_LINES])).2,
   (claim_C8_log_trim ["a"] "e").2 (by norm_num [MAX_LOG_LINES])⟩

/-- C8 counterexample: the claim's "at most 1250 lines" is false — writing an
entry to a 2251-line log yields 1251 lines, because the trim runs before the
new entry is appended. -/
theorem claim_C8_counterexample :
    (write_log_entry "e" (List.replicate 2251 "x")).length = 1251 ∧
    ¬ (write_log_entry "e" (List.replicate 2251 "x")).length ≤ TRIM_TO_LINES := by
  have key : ∀ L : List String, L.length = 2251 →
      (write_log_entry "e" L).length = 1251 := by
    intro L hL
    simp only [write_log_entry, trim_log_if_needed, hL]
    rw [if_neg (by norm_num [MAX_LOG_LINES])]
    simp only [List.length_append, List.length_drop, hL, List.length_singleton]
    norm_num [TRIM_TO_LINES]
  have h := key (List.replicate 2251 "x") (List.length_replicate 2251 "x")
  exact ⟨h, by rw [h]; norm_num [TRIM_TO_LINES]⟩

theorem pySplitChar_ne_nil (sep : Char) (l : List Char) : pySplitChar sep l ≠ [] := by
  induction l with
  | nil => simp [pySplitChar]
  | cons x xs ih =>
    simp only [pySplitChar]
    cases h : pySplitChar sep xs with
    | nil => exact absurd h ih
    | cons a t => by_cases hx : x = sep <;> simp [hx]

/-- Splitting `l ++ sep :: r` at `sep`, when `sep` does not occur in `l`,
yields `l` followed by the split of `r`. -/
theorem pySplitChar_append (sep : Char) (l r : List Char) (h : sep ∉ l) :
    pySplitChar sep (l ++ sep :: r) = l :: pySplitChar sep r := by
  induction l with
  | nil =>
    simp only [List.nil_append, pySplitChar]
    cases hr : pySplitChar sep r with
    | nil => exact absurd hr (pySplitChar_ne_nil sep r)
    | cons a t => simp
  | cons x xs ih =>
    have hx : x ≠ sep := fun e => h (e ▸ List.mem_cons_self x xs)
    have hxs : sep ∉ xs := fun hs => h (List.mem_cons_of_mem x hs)
    rw [List.cons_append]
    simp only [pySplitChar]
    rw [ih hxs]
    simp [hx]

/-- C9 (amended): for every NONEMPTY window id that contains no newline
character and does not start with a character Python's `str.strip()` removes
(Unicode whitespace), `save_window_id` then `load_window_id` returns the
exact window id that was saved.  (The empty id reads back as `"0"`, and an id
containing a newline or led by whitespace is truncated, see the
counterexample.) -/
theorem claim_C9_roundtrip (wid : String) (hne : wid.data ≠ [])
    (hws : pyIsSpace wid.data.headI = false) (hnl : '\n' ∉ wid.data) :
    load_window_id (save_window_id wid) = wid := by
  obtain ⟨c, cs, hcc⟩ : ∃ c cs, wid.data = c :: cs := by
    cases h : wid.data with
    | nil => exact absurd h hne
    | cons a l => exact ⟨a, l, rfl⟩
  have hc : pyIsSpace c = false := by rw [hcc] at hws; simpa using hws
  have hsave : save_window_id wid = (c :: cs) ++ ['\n', '0'] := by
    rw [save_window_id, hcc]
  have hstrip : pyStrip ((c :: cs) ++ ['\n', '0']) = (c :: cs) ++ ['\n', '0'] := by
    rw [pyStrip]
    have h1 : List.dropWhile pyIsSpace ((c :: cs) ++ ['\n', '0']) =
        (c :: cs) ++ ['\n', '0'] := by
      rw [List.cons_append, List.dropWhile_cons, hc]
      simp
    rw [h1, List.reverse_append]
    have hz : pyIsSpace '0' = false := rfl
    have h2 : List.dropWhile pyIsSpace ((['\n', '0'] : List Char).reverse ++
        (c :: cs).reverse) = (['\n', '0'] : List Char).reverse ++ (c :: cs).reverse := by
      show List.dropWhile pyIsSpace ('0' :: '\n' :: (c :: cs).reverse) = _
      rw [List.dropWhile_cons, hz]
      simp
    rw [h2, List.reverse_append, List.reverse_reverse, List.reverse_reverse]
  have hsplit : pySplitChar '\n' ((c :: cs) ++ ['\n', '0']) =
      (c :: cs) :: [['0']] := by
    have : (['\n', '0'] : List Char) = '\n' :: ['0'] := rfl
    rw [this, pySplitChar_append '\n' (c :: cs) ['0'] (hcc ▸ hnl)]
    rfl
  rw [load_window_id, hsave, hstrip, hsplit]
  show String.mk (c :: cs) = wid
  rw [← hcc]

/-- C9 witness: a typical numeric window id survives the round trip. -/
theorem claim_C9_roundtrip_witness :
    load_window_id (save_window_id "12345") = "12345" :=
  claim_C9_roundtrip "12345" (by decide) (by decide) (by decide)

/-- C9 counterexample: the claim's "every window_id string" is false — a
window id containing a newline is truncated at the first line by the round
trip (`load_window_id` returns `lines[0]` of the stripped content), the
empty id reads back as `"0"` (the timestamp line), and an id led by a
`str.strip()` whitespace character such as `\x1c` loses it. -/
theorem claim_C9_counterexample :
    (load_window_id (save_window_id "x\ny") = "x" ∧ ("x" : String) ≠ "x\ny") ∧
    (load_window_id (save_window_id "") = "0" ∧ ("0" : String) ≠ "") ∧
    (load_window_id (save_window_id "\x1cx") = "x" ∧ ("x" : String) ≠ "\x1cx") :=
  ⟨⟨rfl, by decide⟩, ⟨rfl, by decide⟩, ⟨rfl, by decide⟩⟩

/-- C3: the claim fails on the code — `session_id` is used as a path
component with no sanitization (`SESSION_DIR / hook_data.session_id`), so
`"../../etc/passwd"` resolves outside the session directory, and an absolute
session id replaces the session directory entirely (`pathlib` semantics),
while an ordinary id stays inside. -/
theorem claim_C3_path_escape :
    insideSessionDir (resolvePath (session_file_path "../../etc/passwd")) = false ∧
    resolvePath (session_file_path "../../etc/passwd") = ["etc", "passwd"] ∧
    session_file_path "/etc/passwd" = ["etc", "passwd"] ∧
    insideSessionDir (resolvePath (session_file_path "abc123")) = true := by
  refine ⟨?_, ?_, ?_, ?_⟩ <;> rfl

/-- C5: the claim fails on the code — `check_idle_and_notify_push` takes NO
baseline idle sample before the first sleep; with checkpoints `[3]` and the
idle source yielding 30 then 2 (the repo's own `test_baseline_idle_detection`
scenario), the single post-sleep sample is 30 ≥ 3, so the code sends exactly
one push — the claim (and the repository's test) say no push must be sent. -/
theorem claim_C5_no_baseline :
    check_idle_and_notify_push (some { token := "t", user := "u" })
      (fun k => if k = 0 then some 30 else some 2) [3] = Except.ok ([3], 1) ∧
    pushesSent (check_idle_and_notify_push (some { token := "t", user := "u" })
      (fun k => if k = 0 then some 30 else some 2) [3]) = 1 :=
  ⟨rfl, rfl⟩

/-- On a checkpoint list whose gaps are all non-negative (ascending from
`prev`), a failed idle query at a checkpoint the loop can reach makes the
loop return normally with "not idle through all checks". -/
theorem idleLoop_query_fail (src : ℕ → Option ℕ) (ts : List ℕ) :
    ∀ (k prev i : ℕ), List.Chain (· ≤ ·) prev ts → i < ts.length →
      src (k + i) = none →
      ∃ sl, idleLoop src k prev ts = Except.ok (sl, false) := by
  induction ts with
  | nil => intro k prev i _ hi _; simp at hi
  | cons t rest ih =>
    intro k prev i hchain hi hfail
    rcases List.chain_cons.mp hchain with ⟨hle, hchain'⟩
    have hgap : ¬ ((t : Int) - (prev : Int) < 0) := by omega
    simp only [idleLoop]
    rw [if_neg hgap]
    by_cases hidle : is_user_idle (src k) t = true
    · cases i with
      | zero =>
        rw [Nat.add_zero] at hfail
        rw [hfail] at hidle
        simp [is_user_idle] at hidle
      | succ j =>
        obtain ⟨sl, hsl⟩ := ih (k + 1) t j hchain' (by simpa using hi)
          (by rw [show k + 1 + j = k + (j + 1) from by omega]; exact hfail)
        exact ⟨((t : Int) - (prev : Int)) :: sl, by simp [hidle, hsl]⟩
    · have hidle' : is_user_idle (src k) t = false := by simpa using hidle
      exact ⟨[(t : Int) - (prev : Int)], by simp [hidle']⟩

/-- C10 (amended): on a checkpoint list ascending from the baseline 0 (all
sleep gaps non-negative — e.g. the production default `[3]`), when the
idle-time query raises at any checkpoint, `is_user_idle` reports the user as
active (returns false), and the escalation procedure completes without
sending a push and without raising any error to the caller.  (On a
non-ascending list the negative `time.sleep` raises `ValueError` regardless
of the query, see the counterexample.) -/
theorem claim_C10_idle_failure (cfg : PushConfig) (src : ℕ → Option ℕ)
    (check_times : List ℕ) (i : ℕ)
    (hasc : List.Chain (· ≤ ·) 0 check_times) (hne : check_times ≠ [])
    (hi : i < check_times.length) (hfail : src i = none) :
    is_user_idle (src i) (check_times.getD i 0) = false ∧
    pushesSent (check_idle_and_notify_push (some cfg) src check_times) = 0 ∧
    raisedError (check_idle_and_notify_push (some cfg) src check_times) = false := by
  obtain ⟨sl, hsl⟩ :=
    idleLoop_query_fail src check_times 0 0 i hasc hi (by simpa using hfail)
  refine ⟨by rw [hfail]; rfl, ?_, ?_⟩
  · cases check_times with
    | nil => exact absurd rfl hne
    | cons t rest => simp [check_idle_and_notify_push, pushesSent, hsl]
  · cases check_times with
    | nil => exact absurd rfl hne
    | cons t rest => simp [check_idle_and_notify_push, raisedError, hsl]

/-- C10 witness: an idle source that always raises, with checkpoints `[3]`:
no push, no error. -/
theorem claim_C10_idle_failure_witness :
    is_user_idle none 3 = false ∧
    pushesSent (check_idle_and_notify_push (some { token := "t", user := "u" })
      (fun _ => none) [3]) = 0 ∧
    raisedError (check_idle_and_notify_push (some { token := "t", user := "u" })
      (fun _ => none) [3]) = false :=
  claim_C10_idle_failure { token := "t", user := "u" } (fun _ => none) [3] 0
    (List.Chain.cons (by omega) List.Chain.nil) (by decide) (by decide) rfl

/-- C10 counterexample: the claim's "for every checkpoint list" is false —
with the non-ascending checkpoints `[5, 3]` and the idle query raising at
checkpoint index 1 (which is within the list), the second iteration executes
`time.sleep(3 - 5)`, and Python's `time.sleep` raises `ValueError` to the
caller: an error IS raised, no graceful return happens. -/
theorem claim_C10_counterexample :
    ((fun k => if k = 0 then some 10 else none) 1 = (none : Option ℕ)) ∧
    1 < ([5, 3] : List ℕ).length ∧
    check_idle_and_notify_push (some { token := "t", user := "u" })
      (fun k => if k = 0 then some 10 else none) [5, 3] =
      Except.error PyError.valueError ∧
    raisedError (check_idle_and_notify_push (some { token := "t", user := "u" })
      (fun k => if k = 0 then some 10 else none) [5, 3]) = true :=
  ⟨rfl, by decide, rfl, rfl⟩

end CcNotifier
